import Mathlib

/-!
Verification of the credits-based collator admission service of the tanssi
typescript-api repository.

The repository's own sources are the generated polkadot-js type registry
(`src/dancebox/interfaces/lookup.ts`, `src/dancebox/interfaces/augment-api-errors.ts`,
`src/flashbox/interfaces/augment-api-tx.ts`) and the integration test suite
CT0603 embedded in `augment-api-tx.ts`.  The runtime pallet those files
describe (`pallet_services_payment` and the collator-assignment logic) is not
part of the repository, so its behaviour is modelled here from the
specification, while the type declarations and the test scenario are embedded
directly from the sources.
-/

namespace CreditsAdmission

/-- Session configuration used by the admission policy: blocks per session,
cost per block, the existential-deposit floor, and the current session index
(the latter only stamps `AdmissionDecision.evaluatedAt`). -/
structure SessionConfig where
  blocksPerSession : Nat
  costPerBlock : Nat
  existentialDeposit : Nat
  sessionIndex : Nat
deriving DecidableEq

/-- `requiredForTwoSessions = 2 × blocksPerSession × costPerBlock + existentialDeposit`. -/
def requiredForTwoSessions (cfg : SessionConfig) : Nat :=
  2 * cfg.blocksPerSession * cfg.costPerBlock + cfg.existentialDeposit

/-- Modelled from the spec: the CreditLedger of `pallet_services_payment` is
not part of this repository (only its generated type declarations and the
CT0603 test are), so per-tenant balances are modelled as a total map from
tenant id (para id) to an integer balance.  Balances are kept in `Int` so
that the spec's non-negativity invariant and the `max 0` saturation of
`debit` are genuine statements rather than artifacts of `Nat` subtraction. -/
def Ledger : Type := Nat → Int

/-- `balanceOf(tenant)`: pure read. -/
def balanceOf (l : Ledger) (t : Nat) : Int := l t

/-- Modelled from the spec: `setCredits(tenant, amount)` overwrites the
balance unconditionally (`balance := amount`); no existence check, no error
conditions. -/
def setCredits (l : Ledger) (t : Nat) (amount : Nat) : Ledger :=
  fun u => if u = t then (amount : Int) else l u

/-- Modelled from the spec: `purchaseCredits(tenant, paymentAmount)` converts
the payment into credits via `paymentAmount / costPerBlock` (truncating
integer division) and adds them to the balance. -/
def purchaseCredits (costPerBlock : Nat) (l : Ledger) (t : Nat) (paymentAmount : Nat) :
    Ledger :=
  fun u => if u = t then l u + ((paymentAmount / costPerBlock : Nat) : Int) else l u

/-- Modelled from the spec: `debit(tenant, blocksElapsed)` sets
`balance := max(0, balance − blocksElapsed × costPerBlock)`. -/
def debit (costPerBlock : Nat) (l : Ledger) (t : Nat) (blocksElapsed : Nat) : Ledger :=
  fun u => if u = t then max 0 (l u - ((blocksElapsed * costPerBlock : Nat) : Int)) else l u

/-- The derived admission decision: `{eligible, tenant, evaluatedAt}`. -/
structure AdmissionDecision where
  eligible : Bool
  tenant : Nat
  evaluatedAt : Nat
deriving DecidableEq

/-- Modelled from the spec: `AdmissionPolicy.evaluate(tenant, ledger, cfg)`
declares a tenant eligible iff `balanceOf(tenant) ≥ requiredForTwoSessions`. -/
def evaluate (t : Nat) (l : Ledger) (cfg : SessionConfig) : AdmissionDecision :=
  { eligible := decide (((requiredForTwoSessions cfg : Nat) : Int) ≤ balanceOf l t)
    tenant := t
    evaluatedAt := cfg.sessionIndex }

/-- The ledger invariant: `CreditBalance` never negative. -/
def LedgerInv (l : Ledger) : Prop := ∀ t, 0 ≤ l t

/-- One mutating CreditLedger operation. -/
inductive LedgerOp where
  | set (t : Nat) (amount : Nat)
  | purchase (t : Nat) (paymentAmount : Nat)
  | debitOp (t : Nat) (blocksElapsed : Nat)
deriving DecidableEq

/-- Apply a single ledger operation. -/
def applyOp (costPerBlock : Nat) (l : Ledger) : LedgerOp → Ledger
  | .set t amount => setCredits l t amount
  | .purchase t p => purchaseCredits costPerBlock l t p
  | .debitOp t n => debit costPerBlock l t n

/-- Apply a sequence of ledger operations, left to right. -/
def applyOps (costPerBlock : Nat) (l : Ledger) : List LedgerOp → Ledger
  | [] => l
  | op :: ops => applyOps costPerBlock (applyOp costPerBlock l op) ops

/-- Modelled from the spec: the session-clock orchestration and the
collator-assignment process driven by the admission policy are not part of
this repository (the CT0603 test only observes them through
`collatorAssignment.collatorContainerChain`).  The observable state is the
per-tenant credit tank (in payment units, the unit in which the §4.2
threshold `2 × blocksPerSession × costPerBlock + existentialDeposit` is
expressed), the currently active collator assignment, and the assignment
computed at the last session boundary, which takes effect one session later
(the test jumps two sessions for a change to become observable). -/
structure ChainState where
  balances : Nat → Int
  active : Nat → Bool
  pending : Nat → Bool

/-- Eligibility of a balance under the §4.2 threshold; agrees with
`AdmissionPolicy.evaluate` (see `eligibleBal_eq_evaluate`). -/
def eligibleBal (cfg : SessionConfig) (b : Int) : Bool :=
  decide (((requiredForTwoSessions cfg : Nat) : Int) ≤ b)

/-- Modelled from the spec: one session boundary.  Tenants that were active
(assigned collators) during the elapsed session produced its
`blocksPerSession` blocks and are debited for them; tenants with zero
collators produced nothing and are not debited.  The assignment computed at
the previous boundary becomes active, and a fresh admission decision is
computed from the debited balances. -/
def advanceSession (cfg : SessionConfig) (s : ChainState) : ChainState :=
  let debited : Nat → Int := fun t =>
    if s.active t then
      max 0 (s.balances t - ((cfg.blocksPerSession * cfg.costPerBlock : Nat) : Int))
    else s.balances t
  { balances := debited
    active := s.pending
    pending := fun t => eligibleBal cfg (debited t) }

/-- `jumpSessions(n)`: advance `n` session boundaries. -/
def jumpSessions (cfg : SessionConfig) (n : Nat) (s : ChainState) : ChainState :=
  (advanceSession cfg)^[n] s

/-- Modelled from the spec: the `servicesPayment.setCredits(paraId, credits)`
extrinsic overwrites the tenant's tank with the given number of credits, a
credit being worth one block of collator service priced at `costPerBlock`
payment units (glossary; test E02 counts `setCredits(2000, 5)` as one
session's worth towards the `2 sessions + ED` threshold). -/
def scSetCredits (cfg : SessionConfig) (s : ChainState) (t credits : Nat) : ChainState :=
  { s with balances := fun u =>
      if u = t then ((credits * cfg.costPerBlock : Nat) : Int) else s.balances u }

/-- Modelled from the spec: the `servicesPayment.purchaseCredits(paraId,
credit)` extrinsic adds the payment amount to the tenant's tank (test E02/E03:
buying `blocksPerSession × costPerBlock + ED − 1` on top of one set session
is exactly one short of the threshold, and one more unit reaches it). -/
def scPurchaseCredits (s : ChainState) (t payment : Nat) : ChainState :=
  { s with balances := fun u =>
      if u = t then s.balances u + (payment : Int) else s.balances u }

/-- Modelled from the spec: each tenant of the active assignment holds a
non-empty collator list; the query `collatorAssignment.collatorContainerChain`
has no entry for an unassigned tenant. -/
def collatorsPerContainer : Nat := 2

/-- The `containerChains` entry for a tenant: `none` when unassigned. -/
def containerChainEntry (s : ChainState) (t : Nat) : Option Nat :=
  if s.active t then some collatorsPerContainer else none

/-- The CT0603 suite's constants: `blocksPerSession = 5`,
`costPerBlock = 1_000_000`, existential deposit read from the chain. -/
def ct0603Config (ED : Nat) : SessionConfig := ⟨5, 1000000, ED, 0⟩

/-- State after test E01: `setCredits(2000, 0)`, `setCredits(2001, 0)`,
`jumpSessions(2)`. -/
def ct0603StateA (ED : Nat) (s₀ : ChainState) : ChainState :=
  jumpSessions (ct0603Config ED) 2
    (scSetCredits (ct0603Config ED) (scSetCredits (ct0603Config ED) s₀ 2000 0) 2001 0)

/-- State after test E02: `setCredits(2000, blocksPerSession)`,
`purchaseCredits(2000, blocksPerSession × costPerBlock + ED − 1)`,
`jumpSessions(2)`. -/
def ct0603StateB (ED : Nat) (s₀ : ChainState) : ChainState :=
  jumpSessions (ct0603Config ED) 2
    (scPurchaseCredits (scSetCredits (ct0603Config ED) (ct0603StateA ED s₀) 2000 5)
      2000 (5 * 1000000 + ED - 1))

/-- State after test E03: `purchaseCredits(2000, 1)`, `jumpSessions(2)`. -/
def ct0603StateC (ED : Nat) (s₀ : ChainState) : ChainState :=
  jumpSessions (ct0603Config ED) 2 (scPurchaseCredits (ct0603StateB ED s₀) 2000 1)

/-- SCALE types appearing in the services-payment declarations of
`lookup.ts` and `augment-api-tx.ts`. -/
inductive ScaleType where
  | u32
  | u128
  | boolTy
  | accountId32
deriving DecidableEq

/-- Bit width of the integer SCALE types. -/
def ScaleType.width : ScaleType → Option Nat
  | .u32 => some 32
  | .u128 => some 128
  | .boolTy => none
  | .accountId32 => none

/-- One variant of a SCALE enum as declared in `lookup.ts`: a constructor
name and its named, typed fields. -/
structure LookupVariant where
  name : String
  fields : List (String × ScaleType)

/-- `lookup.ts` Lookup262, `PalletServicesPaymentCall`: `purchase_credits
{paraId: u32, credit: u128}`, `set_credits {paraId: u32, credits: u32}`,
`set_given_free_credits {paraId: u32, givenFreeCredits: bool}`. -/
def palletServicesPaymentCall : List LookupVariant :=
  [⟨"purchase_credits", [("paraId", .u32), ("credit", .u128)]⟩,
   ⟨"set_credits", [("paraId", .u32), ("credits", .u32)]⟩,
   ⟨"set_given_free_credits", [("paraId", .u32), ("givenFreeCredits", .boolTy)]⟩]

/-- `lookup.ts` Lookup54, `PalletServicesPaymentEvent`: `CreditsPurchased
{paraId: u32, payer: AccountId32, credit: u128}`, `CreditBurned {paraId: u32,
creditsRemaining: u32}`, `CreditsSet {paraId: u32, credits: u32}`. -/
def palletServicesPaymentEvent : List LookupVariant :=
  [⟨"CreditsPurchased", [("paraId", .u32), ("payer", .accountId32), ("credit", .u128)]⟩,
   ⟨"CreditBurned", [("paraId", .u32), ("creditsRemaining", .u32)]⟩,
   ⟨"CreditsSet", [("paraId", .u32), ("credits", .u32)]⟩]

/-- `augment-api-tx.ts` (flashbox), `servicesPayment`: argument types of the
submittable extrinsics: `purchaseCredits: [u32, u128]`,
`setCredits: [u32, u32]`, `setGivenFreeCredits: [u32, bool]`. -/
def flashboxServicesPaymentTx : List (String × List ScaleType) :=
  [("purchaseCredits", [.u32, .u128]),
   ("setCredits", [.u32, .u32]),
   ("setGivenFreeCredits", [.u32, .boolTy])]

/-- Type of a named field of a named variant of a SCALE enum. -/
def fieldType (e : List LookupVariant) (variant field : String) : Option ScaleType :=
  (e.find? (fun v => v.name == variant)).bind
    (fun v => (v.fields.find? (fun f => f.1 == field)).map (fun f => f.2))

/-- Modelled from the spec: credit balances are reported through u32 fields
(`CreditBurned.creditsRemaining`, `CreditsSet.credits`), while out-of-range
arithmetic must saturate rather than panic, so the balance stored after a
purchase is the exact converted amount clamped to the u32 range. -/
def storedCreditsAfterPurchase (balance paymentAmount costPerBlock : Nat) : Nat :=
  min (balance + paymentAmount / costPerBlock) (2 ^ 32 - 1)

/-- `lookup.ts` Lookup378, `PalletServicesPaymentError`: the closed error
enum of the services-payment pallet. -/
inductive PalletServicesPaymentError where
  | InsufficientFundsToPurchaseCredits
  | InsufficientCredits
  | CreditPriceTooExpensive
deriving DecidableEq

/-- Constructor name of a services-payment error, as it appears in the
generated registry. -/
def PalletServicesPaymentError.toName : PalletServicesPaymentError → String
  | .InsufficientFundsToPurchaseCredits => "InsufficientFundsToPurchaseCredits"
  | .InsufficientCredits => "InsufficientCredits"
  | .CreditPriceTooExpensive => "CreditPriceTooExpensive"

/-- `lookup.ts` line 3154: `_enum: ["InsufficientFundsToPurchaseCredits",
"InsufficientCredits", "CreditPriceTooExpensive"]` (the same three names are
declared in `augment-api-errors.ts` under `servicesPayment`). -/
def palletServicesPaymentErrorVariants : List String :=
  ["InsufficientFundsToPurchaseCredits", "InsufficientCredits", "CreditPriceTooExpensive"]

/-- Modelled from the spec: at the extrinsic boundary a purchase burns payer
funds, so `purchaseCredits` can fail with `InsufficientFundsToPurchaseCredits`
when the payer cannot cover the payment; within the observed scope this is
the only failure. -/
def purchaseCreditsExtrinsic (payerFunds : Nat) (costPerBlock : Nat) (l : Ledger)
    (t paymentAmount : Nat) : Except PalletServicesPaymentError Ledger :=
  if paymentAmount ≤ payerFunds then
    .ok (purchaseCredits costPerBlock l t paymentAmount)
  else
    .error .InsufficientFundsToPurchaseCredits

theorem setCredits_nonneg (l : Ledger) (t amount u : Nat) (h : 0 ≤ l u) :
    0 ≤ setCredits l t amount u := by
  unfold setCredits
  split
  · exact Int.ofNat_nonneg amount
  · exact h

theorem purchaseCredits_nonneg (c : Nat) (l : Ledger) (t p u : Nat) (h : 0 ≤ l u) :
    0 ≤ purchaseCredits c l t p u := by
  unfold purchaseCredits
  split
  · exact add_nonneg h (Int.ofNat_nonneg _)
  · exact h

theorem debit_nonneg (c : Nat) (l : Ledger) (t n u : Nat) (h : 0 ≤ l u) :
    0 ≤ debit c l t n u := by
  unfold debit
  split
  · exact le_max_left 0 _
  · exact h

theorem applyOp_inv (c : Nat) (l : Ledger) (op : LedgerOp) (h : LedgerInv l) :
    LedgerInv (applyOp c l op) := by
  cases op with
  | set t amount => exact fun u => setCredits_nonneg l t amount u (h u)
  | purchase t p => exact fun u => purchaseCredits_nonneg c l t p u (h u)
  | debitOp t n => exact fun u => debit_nonneg c l t n u (h u)

theorem applyOps_inv (c : Nat) (ops : List LedgerOp) (l : Ledger) (h : LedgerInv l) :
    LedgerInv (applyOps c l ops) := by
  induction ops generalizing l with
  | nil => exact h
  | cons op ops ih => exact ih _ (applyOp_inv c l op h)

theorem eligibleBal_eq_evaluate (cfg : SessionConfig) (l : Ledger) (t : Nat) :
    eligibleBal cfg (balanceOf l t) = (evaluate t l cfg).eligible := rfl

theorem advanceSession_balances (cfg : SessionConfig) (s : ChainState) (t : Nat) :
    (advanceSession cfg s).balances t =
      if s.active t then
        max 0 (s.balances t - ((cfg.blocksPerSession * cfg.costPerBlock : Nat) : Int))
      else s.balances t := rfl

theorem advanceSession_active (cfg : SessionConfig) (s : ChainState) (t : Nat) :
    (advanceSession cfg s).active t = s.pending t := rfl

theorem advanceSession_pending (cfg : SessionConfig) (s : ChainState) (t : Nat) :
    (advanceSession cfg s).pending t =
      eligibleBal cfg ((advanceSession cfg s).balances t) := rfl

theorem advanceSession_balances_of_inactive (cfg : SessionConfig) (s : ChainState)
    (t : Nat) (ha : s.active t = false) :
    (advanceSession cfg s).balances t = s.balances t := by
  rw [advanceSession_balances, ha]
  simp

theorem jumpSessions_two (cfg : SessionConfig) (s : ChainState) :
    jumpSessions cfg 2 s = advanceSession cfg (advanceSession cfg s) := rfl

theorem eligibleBal_zero (cfg : SessionConfig) (hreq : 0 < requiredForTwoSessions cfg) :
    eligibleBal cfg 0 = false := by
  simp only [eligibleBal, decide_eq_false_iff_not]
  omega

/-- Two boundaries starting from a zero balance: the balance stays zero and
the tenant ends up unassigned and ineligible, whatever the initial
assignment was. -/
theorem jump2_zero_balance (cfg : SessionConfig) (s : ChainState) (t : Nat)
    (hb : s.balances t = 0) (hreq : 0 < requiredForTwoSessions cfg) :
    (jumpSessions cfg 2 s).balances t = 0
    ∧ (jumpSessions cfg 2 s).active t = false
    ∧ (jumpSessions cfg 2 s).pending t = false := by
  have hz : ∀ s' : ChainState, s'.balances t = 0 →
      (advanceSession cfg s').balances t = 0 := by
    intro s' hb'
    rw [advanceSession_balances, hb']
    have hk := Int.ofNat_nonneg (cfg.blocksPerSession * cfg.costPerBlock)
    split
    · exact max_eq_left (by omega)
    · rfl
  have h1b := hz s hb
  have h1p : (advanceSession cfg s).pending t = false := by
    rw [advanceSession_pending, h1b]
    exact eligibleBal_zero cfg hreq
  have h2b := hz _ h1b
  refine ⟨by rw [jumpSessions_two]; exact h2b, ?_, ?_⟩
  · rw [jumpSessions_two, advanceSession_active]
    exact h1p
  · rw [jumpSessions_two, advanceSession_pending, h2b]
    exact eligibleBal_zero cfg hreq

/-- Two boundaries for a tenant that is unassigned, not pending, and below
the threshold: its balance is untouched and it stays unassigned. -/
theorem jump2_idle (cfg : SessionConfig) (s : ChainState) (t : Nat)
    (ha : s.active t = false) (hp : s.pending t = false)
    (he : eligibleBal cfg (s.balances t) = false) :
    (jumpSessions cfg 2 s).balances t = s.balances t
    ∧ (jumpSessions cfg 2 s).active t = false
    ∧ (jumpSessions cfg 2 s).pending t = false := by
  have h1b := advanceSession_balances_of_inactive cfg s t ha
  have h1a : (advanceSession cfg s).active t = false := by
    rw [advanceSession_active]; exact hp
  have h1p : (advanceSession cfg s).pending t = false := by
    rw [advanceSession_pending, h1b]; exact he
  have h2b := advanceSession_balances_of_inactive cfg _ t h1a
  refine ⟨by rw [jumpSessions_two, h2b]; exact h1b, ?_, ?_⟩
  · rw [jumpSessions_two, advanceSession_active]
    exact h1p
  · rw [jumpSessions_two, advanceSession_pending, h2b, h1b]
    exact he

/-- Two boundaries for a tenant that is unassigned and not pending but now
meets the threshold: the assignment computed at the first boundary becomes
active at the second, with the balance not yet debited. -/
theorem jump2_becomes_active (cfg : SessionConfig) (s : ChainState) (t : Nat)
    (ha : s.active t = false) (hp : s.pending t = false)
    (he : eligibleBal cfg (s.balances t) = true) :
    (jumpSessions cfg 2 s).active t = true
    ∧ (jumpSessions cfg 2 s).balances t = s.balances t := by
  have h1b := advanceSession_balances_of_inactive cfg s t ha
  have h1a : (advanceSession cfg s).active t = false := by
    rw [advanceSession_active]; exact hp
  have h1p : (advanceSession cfg s).pending t = true := by
    rw [advanceSession_pending, h1b]; exact he
  have h2b := advanceSession_balances_of_inactive cfg _ t h1a
  refine ⟨?_, by rw [jumpSessions_two, h2b]; exact h1b⟩
  rw [jumpSessions_two, advanceSession_active]
  exact h1p

theorem scSetCredits_balances_self (cfg : SessionConfig) (s : ChainState)
    (t credits : Nat) :
    (scSetCredits cfg s t credits).balances t =
      ((credits * cfg.costPerBlock : Nat) : Int) := by
  simp [scSetCredits]

theorem scPurchaseCredits_balances_self (s : ChainState) (t payment : Nat) :
    (scPurchaseCredits s t payment).balances t = s.balances t + (payment : Int) := by
  simp [scPurchaseCredits]

/-- C1 (counterexample): the claim quantifies over every session
configuration, but in the degenerate configuration
`blocksPerSession = costPerBlock = existentialDeposit = 0` the required
threshold is `0`, so a tenant whose balance is zero is declared eligible,
contradicting the claim's assertion that a zero balance is never eligible. -/
theorem C1_zero_config_counterexample :
    (evaluate 2000 (fun _ => (0 : Int)) ⟨0, 0, 0, 0⟩).eligible = true := by
  decide

/-- C1 (amended): `evaluate` returns `eligible = true` iff the tenant's
balance is at least `2 × blocksPerSession × costPerBlock + existentialDeposit`,
and — provided that threshold is positive — a balance of exactly the
threshold minus one is not eligible and a zero balance is not eligible. -/
theorem C1_eligibility_threshold (cfg : SessionConfig) (l : Ledger) (t : Nat)
    (hpos : 0 < requiredForTwoSessions cfg) :
    ((evaluate t l cfg).eligible = true ↔
      ((requiredForTwoSessions cfg : Nat) : Int) ≤ balanceOf l t)
    ∧ (balanceOf l t = ((requiredForTwoSessions cfg : Nat) : Int) - 1 →
      (evaluate t l cfg).eligible = false)
    ∧ (balanceOf l t = 0 → (evaluate t l cfg).eligible = false) := by
  refine ⟨by simp [evaluate], ?_, ?_⟩
  · intro hb
    simp only [evaluate, balanceOf] at hb ⊢
    simp [hb]
  · intro hb
    simp only [evaluate, balanceOf] at hb ⊢
    simp [hb]
    omega

theorem C1_eligibility_threshold_witness :
    ((evaluate 2000 (fun _ => (10000000 : Int)) ⟨5, 1000000, 0, 0⟩).eligible = true ↔
      ((requiredForTwoSessions ⟨5, 1000000, 0, 0⟩ : Nat) : Int) ≤
        balanceOf (fun _ => (10000000 : Int)) 2000)
    ∧ (balanceOf (fun _ => (10000000 : Int)) 2000 =
        ((requiredForTwoSessions ⟨5, 1000000, 0, 0⟩ : Nat) : Int) - 1 →
      (evaluate 2000 (fun _ => (10000000 : Int)) ⟨5, 1000000, 0, 0⟩).eligible = false)
    ∧ (balanceOf (fun _ => (10000000 : Int)) 2000 = 0 →
      (evaluate 2000 (fun _ => (10000000 : Int)) ⟨5, 1000000, 0, 0⟩).eligible = false) :=
  C1_eligibility_threshold ⟨5, 1000000, 0, 0⟩ (fun _ => (10000000 : Int)) 2000 (by decide)

/-- C3: every CreditLedger operation preserves non-negativity of every
balance — any sequence of `setCredits`, `purchaseCredits` and `debit` calls
(in particular arbitrarily many repeated debits of arbitrary magnitude)
keeps every balance at or above `0` — and `debit` computes exactly
`max 0 (balance − blocksElapsed × costPerBlock)`. -/
theorem C3_balance_never_negative (c : Nat) (l : Ledger) (h : LedgerInv l) :
    (∀ ops : List LedgerOp, LedgerInv (applyOps c l ops))
    ∧ ∀ t n, debit c l t n t = max 0 (l t - ((n * c : Nat) : Int)) := by
  refine ⟨fun ops => applyOps_inv c ops l h, fun t n => ?_⟩
  simp [debit]

theorem C3_balance_never_negative_witness :
    (∀ ops : List LedgerOp, LedgerInv (applyOps 1000000 (fun _ => (3 : Int)) ops))
    ∧ ∀ t n, debit 1000000 (fun _ => (3 : Int)) t n t =
      max 0 ((3 : Int) - ((n * 1000000 : Nat) : Int)) :=
  C3_balance_never_negative 1000000 (fun _ => (3 : Int))
    (fun _ => by norm_num)

/-- C4: none of the modelled operations can fail — `setCredits`,
`purchaseCredits` and `debit` are total and keep balances non-negative
(saturating instead of underflowing), `balanceOf` is a pure read, and
`evaluate` always produces a definite boolean. -/
theorem C4_operations_total :
    (∀ (l : Ledger) (t amount u : Nat), 0 ≤ l u → 0 ≤ setCredits l t amount u)
    ∧ (∀ (c : Nat) (l : Ledger) (t p u : Nat), 0 ≤ l u → 0 ≤ purchaseCredits c l t p u)
    ∧ (∀ (c : Nat) (l : Ledger) (t n : Nat), 0 ≤ debit c l t n t)
    ∧ (∀ (l : Ledger) (t : Nat), balanceOf l t = l t)
    ∧ (∀ (t : Nat) (l : Ledger) (cfg : SessionConfig),
      (evaluate t l cfg).eligible = true ∨ (evaluate t l cfg).eligible = false) := by
  refine ⟨fun l t amount u h => setCredits_nonneg l t amount u h,
    fun c l t p u h => purchaseCredits_nonneg c l t p u h,
    fun c l t n => ?_, fun l t => rfl,
    fun t l cfg => Bool.eq_false_or_eq_true _⟩
  · simp only [debit, if_pos rfl]
    exact le_max_left 0 _

theorem C4_operations_total_witness :
    0 ≤ setCredits (fun _ => (0 : Int)) 2000 5 2000
    ∧ 0 ≤ purchaseCredits 1000000 (fun _ => (0 : Int)) 2000 3000000 2000
    ∧ 0 ≤ debit 1000000 (fun _ => (0 : Int)) 2000 7 2000 :=
  ⟨C4_operations_total.1 (fun _ => (0 : Int)) 2000 5 2000 (le_refl 0),
   C4_operations_total.2.1 1000000 (fun _ => (0 : Int)) 2000 3000000 2000 (le_refl 0),
   C4_operations_total.2.2.1 1000000 (fun _ => (0 : Int)) 2000 7⟩

/-- C5: for a fixed session configuration, eligibility is monotonically
non-decreasing in the balance — if a tenant is eligible at a smaller
balance it stays eligible at any larger one. -/
theorem C5_eligibility_monotone (cfg : SessionConfig) (t : Nat) (l1 l2 : Ledger)
    (hle : balanceOf l1 t ≤ balanceOf l2 t)
    (he : (evaluate t l1 cfg).eligible = true) :
    (evaluate t l2 cfg).eligible = true := by
  simp only [evaluate, decide_eq_true_eq] at he ⊢
  exact le_trans he hle

theorem C5_eligibility_monotone_witness :
    (evaluate 2000 (fun _ => (20000000 : Int)) ⟨5, 1000000, 0, 0⟩).eligible = true :=
  C5_eligibility_monotone ⟨5, 1000000, 0, 0⟩ 2000
    (fun _ => (10000000 : Int)) (fun _ => (20000000 : Int)) (by decide) (by decide)

/-- C6: when `costPerBlock` divides both payments evenly, two successive
purchases credit exactly as much as the single combined purchase: every
balance in the resulting ledgers agrees. -/
theorem C6_purchase_additive (c : Nat) (l : Ledger) (t p1 p2 : Nat)
    (h1 : c ∣ p1) (_h2 : c ∣ p2) :
    ∀ u, balanceOf (purchaseCredits c (purchaseCredits c l t p1) t p2) u =
      balanceOf (purchaseCredits c l t (p1 + p2)) u := by
  intro u
  simp only [balanceOf, purchaseCredits]
  split
  · rw [Nat.add_div_of_dvd_right h1]
    push_cast
    ring
  · rfl

theorem C6_purchase_additive_witness :
    balanceOf
        (purchaseCredits 1000000 (purchaseCredits 1000000 (fun _ => (0 : Int)) 2000 3000000)
          2000 5000000) 2000 =
      balanceOf (purchaseCredits 1000000 (fun _ => (0 : Int)) 2000 (3000000 + 5000000)) 2000 :=
  C6_purchase_additive 1000000 (fun _ => (0 : Int)) 2000 3000000 5000000
    ⟨3, rfl⟩ ⟨5, rfl⟩ 2000

/-- C7: `setCredits` overwrites unconditionally — the new balance is exactly
the amount written, independent of the prior balance, and writing the same
amount twice gives the same ledger as writing it once. -/
theorem C7_setCredits_overwrites (l : Ledger) (t x : Nat) :
    balanceOf (setCredits l t x) t = (x : Int)
    ∧ setCredits (setCredits l t x) t x = setCredits l t x := by
  constructor
  · simp [balanceOf, setCredits]
  · funext u
    simp only [setCredits]
    split <;> rfl

/-- C2: the CT0603 end-to-end scenario with `blocksPerSession = 5` and
`costPerBlock = 1_000_000`, from any initial chain state and for any
existential deposit: (a) after `setCredits(2000, 0)` the collator query has
no entry for tenant 2000; (b) after `setCredits(2000, 5)` and
`purchaseCredits(2000, 5×1_000_000 + ED − 1)` there is still no entry after
two sessions; (c) after one further `purchaseCredits(2000, 1)` the entry
for tenant 2000 after two sessions is non-empty. -/
theorem C2_ct0603_scenario (ED : Nat) (s₀ : ChainState) :
    containerChainEntry (ct0603StateA ED s₀) 2000 = none
    ∧ containerChainEntry (ct0603StateB ED s₀) 2000 = none
    ∧ ∃ k, containerChainEntry (ct0603StateC ED s₀) 2000 = some k ∧ 0 < k := by
  have hreq : 0 < requiredForTwoSessions (ct0603Config ED) := by
    simp only [requiredForTwoSessions, ct0603Config]
    omega
  have hA0 : (scSetCredits (ct0603Config ED)
      (scSetCredits (ct0603Config ED) s₀ 2000 0) 2001 0).balances 2000 = 0 := by
    simp [scSetCredits]
  have hA := jump2_zero_balance (ct0603Config ED) _ 2000 hA0 hreq
  have hAa : (ct0603StateA ED s₀).active 2000 = false := hA.2.1
  have hAp : (ct0603StateA ED s₀).pending 2000 = false := hA.2.2
  have entryA : containerChainEntry (ct0603StateA ED s₀) 2000 = none := by
    simp [containerChainEntry, hAa]
  have hB0bal : (scPurchaseCredits
      (scSetCredits (ct0603Config ED) (ct0603StateA ED s₀) 2000 5)
      2000 (5 * 1000000 + ED - 1)).balances 2000 = ((9999999 + ED : Nat) : Int) := by
    rw [scPurchaseCredits_balances_self, scSetCredits_balances_self]
    have h5 : (5 * (ct0603Config ED).costPerBlock : Nat) = 5000000 := by
      norm_num [ct0603Config]
    have hp : (5 * 1000000 + ED - 1 : Nat) = 4999999 + ED := by omega
    rw [h5, hp]
    push_cast
    ring
  have hB0a : (scPurchaseCredits
      (scSetCredits (ct0603Config ED) (ct0603StateA ED s₀) 2000 5)
      2000 (5 * 1000000 + ED - 1)).active 2000 = false := hAa
  have hB0p : (scPurchaseCredits
      (scSetCredits (ct0603Config ED) (ct0603StateA ED s₀) 2000 5)
      2000 (5 * 1000000 + ED - 1)).pending 2000 = false := hAp
  have hB0e : eligibleBal (ct0603Config ED) ((9999999 + ED : Nat) : Int) = false := by
    simp only [eligibleBal, requiredForTwoSessions, ct0603Config,
      decide_eq_false_iff_not]
    push_cast
    omega
  have hB := jump2_idle (ct0603Config ED) _ 2000 hB0a hB0p (by rw [hB0bal]; exact hB0e)
  have hBa : (ct0603StateB ED s₀).active 2000 = false := hB.2.1
  have hBp : (ct0603StateB ED s₀).pending 2000 = false := hB.2.2
  have hBbal : (ct0603StateB ED s₀).balances 2000 = ((9999999 + ED : Nat) : Int) :=
    hB.1.trans hB0bal
  have entryB : containerChainEntry (ct0603StateB ED s₀) 2000 = none := by
    simp [containerChainEntry, hBa]
  have hC0bal : (scPurchaseCredits (ct0603StateB ED s₀) 2000 1).balances 2000 =
      ((10000000 + ED : Nat) : Int) := by
    rw [scPurchaseCredits_balances_self, hBbal]
    push_cast
    ring
  have hC0e : eligibleBal (ct0603Config ED) ((10000000 + ED : Nat) : Int) = true := by
    simp only [eligibleBal, requiredForTwoSessions, ct0603Config, decide_eq_true_eq]
    push_cast
    omega
  have hC := jump2_becomes_active (ct0603Config ED)
    (scPurchaseCredits (ct0603StateB ED s₀) 2000 1) 2000
    (show (scPurchaseCredits (ct0603StateB ED s₀) 2000 1).active 2000 = false from hBa)
    (show (scPurchaseCredits (ct0603StateB ED s₀) 2000 1).pending 2000 = false from hBp)
    (by rw [hC0bal]; exact hC0e)
  have hCa : (ct0603StateC ED s₀).active 2000 = true := hC.1
  refine ⟨entryA, entryB, ⟨collatorsPerContainer, ?_, by norm_num [collatorsPerContainer]⟩⟩
  simp [containerChainEntry, hCa]

/-- C8: a tenant that right after a session boundary is unassigned (zero
collators) and below the eligibility threshold keeps its exact balance
across any number of further sessions — debits apply only to blocks the
tenant actually produced, so the balance accumulated while unassigned stays
intact. -/
theorem C8_unassigned_balance_intact (cfg : SessionConfig) (s' : ChainState) (t : Nat)
    (ha : (advanceSession cfg s').active t = false)
    (he : eligibleBal cfg ((advanceSession cfg s').balances t) = false) :
    ∀ n, (jumpSessions cfg n (advanceSession cfg s')).balances t =
      (advanceSession cfg s').balances t := by
  have key : ∀ n,
      (jumpSessions cfg n (advanceSession cfg s')).balances t =
        (advanceSession cfg s').balances t
      ∧ (jumpSessions cfg n (advanceSession cfg s')).active t = false
      ∧ (jumpSessions cfg n (advanceSession cfg s')).pending t = false := by
    intro n
    induction n with
    | zero => exact ⟨rfl, ha, he⟩
    | succ n ih =>
      have hstep : jumpSessions cfg (n + 1) (advanceSession cfg s') =
          advanceSession cfg (jumpSessions cfg n (advanceSession cfg s')) := by
        rw [jumpSessions, jumpSessions, Function.iterate_succ_apply']
      refine ⟨?_, ?_, ?_⟩
      · rw [hstep, advanceSession_balances_of_inactive cfg _ t ih.2.1]
        exact ih.1
      · rw [hstep, advanceSession_active]
        exact ih.2.2
      · rw [hstep, advanceSession_pending,
          advanceSession_balances_of_inactive cfg _ t ih.2.1, ih.1]
        exact he
  exact fun n => (key n).1

theorem C8_unassigned_balance_intact_witness :
    (jumpSessions (ct0603Config 0) 3
        (advanceSession (ct0603Config 0)
          ⟨fun _ => (9999999 : Int), fun _ => false, fun _ => false⟩)).balances 2000 =
      (advanceSession (ct0603Config 0)
        ⟨fun _ => (9999999 : Int), fun _ => false, fun _ => false⟩).balances 2000 :=
  C8_unassigned_balance_intact (ct0603Config 0)
    ⟨fun _ => (9999999 : Int), fun _ => false, fun _ => false⟩ 2000 rfl (by decide) 3

/-- C9: at the public interface credit counts and payment amounts have
different integer widths — `set_credits.credits` and
`CreditBurned.creditsRemaining` are `u32` (32 bits) while
`purchase_credits.credit` is `u128` (128 bits), matching the flashbox
extrinsic argument lists — hence the stored credit balance is always below
`2^32`, and a purchase whose converted credits would reach `2^32` cannot be
represented exactly and saturates. -/
theorem C9_integer_widths :
    fieldType palletServicesPaymentCall "set_credits" "credits" = some .u32
    ∧ fieldType palletServicesPaymentEvent "CreditBurned" "creditsRemaining" = some .u32
    ∧ fieldType palletServicesPaymentCall "purchase_credits" "credit" = some .u128
    ∧ (flashboxServicesPaymentTx.find? (fun f => f.1 == "setCredits")).map
        (fun f => f.2) = some [.u32, .u32]
    ∧ (flashboxServicesPaymentTx.find? (fun f => f.1 == "purchaseCredits")).map
        (fun f => f.2) = some [.u32, .u128]
    ∧ ScaleType.width .u32 = some 32
    ∧ ScaleType.width .u128 = some 128
    ∧ (∀ balance p c : Nat, storedCreditsAfterPurchase balance p c < 2 ^ 32)
    ∧ (∀ balance p c : Nat, 2 ^ 32 ≤ balance + p / c →
        storedCreditsAfterPurchase balance p c ≠ balance + p / c) := by
  refine ⟨rfl, rfl, rfl, rfl, rfl, rfl, rfl, ?_, ?_⟩
  · intro b p c
    unfold storedCreditsAfterPurchase
    calc min (b + p / c) (2 ^ 32 - 1) ≤ 2 ^ 32 - 1 := min_le_right _ _
      _ < 2 ^ 32 := by norm_num
  · intro b p c h heq
    unfold storedCreditsAfterPurchase at heq
    rw [min_eq_right (by omega)] at heq
    omega

theorem C9_integer_widths_witness :
    storedCreditsAfterPurchase (2 ^ 32) 0 1 ≠ 2 ^ 32 + 0 / 1 :=
  C9_integer_widths.2.2.2.2.2.2.2.2 (2 ^ 32) 0 1 (by norm_num)

/-- C10: the services-payment error set is closed with exactly the three
declared variants, and a failing `purchaseCredits` call (insufficient payer
funds) returns one of them — in the observed scope always
`InsufficientFundsToPurchaseCredits`. -/
theorem C10_closed_error_set :
    (∀ e : PalletServicesPaymentError,
      e = .InsufficientFundsToPurchaseCredits ∨ e = .InsufficientCredits ∨
        e = .CreditPriceTooExpensive)
    ∧ (∀ e : PalletServicesPaymentError,
      e.toName ∈ palletServicesPaymentErrorVariants)
    ∧ palletServicesPaymentErrorVariants.length = 3
    ∧ (∀ (funds c : Nat) (l : Ledger) (t p : Nat) (e : PalletServicesPaymentError),
      purchaseCreditsExtrinsic funds c l t p = .error e →
        e.toName ∈ palletServicesPaymentErrorVariants
        ∧ e = .InsufficientFundsToPurchaseCredits) := by
  refine ⟨?_, ?_, rfl, ?_⟩
  · intro e
    cases e <;> simp
  · intro e
    cases e <;> decide
  · intro funds c l t p e h
    unfold purchaseCreditsExtrinsic at h
    split at h
    · exact absurd h (by simp)
    · simp only [Except.error.injEq] at h
      subst h
      exact ⟨by decide, rfl⟩

theorem C10_closed_error_set_witness :
    PalletServicesPaymentError.InsufficientFundsToPurchaseCredits.toName ∈
        palletServicesPaymentErrorVariants
    ∧ PalletServicesPaymentError.InsufficientFundsToPurchaseCredits =
        .InsufficientFundsToPurchaseCredits :=
  C10_closed_error_set.2.2.2 0 1000000 (fun _ => (0 : Int)) 2000 5
    .InsufficientFundsToPurchaseCredits rfl

end CreditsAdmission
